import Mathlib

/-!
Verification of the figma-tinifier-server HTTP relay.

The embedding models the refactored server (`src/unnamed/part_000`): the shared
transform pipeline `compressImage`, the error classifier
`handleCompressionError`, the three request handlers, and — for the
refinement claim — the older inline `/api/compress` handler of
`src/server.js`.

Modelling conventions:
* Image buffers are `List Nat` (byte sequences); base64 transport encoding is
  omitted, so the JSON `image` field and the JSON `data` field carry the
  decoded bytes directly (`JVal.bytes`).  Base64 is injective framework
  plumbing; both code paths under comparison apply the identical encoding.
* Optional JavaScript values are `Option`; `none` stands for any falsy value
  (absent, `undefined`, `null`, empty string, `0`), so `x || d` becomes
  `x.getD d` and `if (x)` becomes `x.isSome`.  Numeric form fields are
  modelled post-`parseInt` as `Option Nat`.
* The external Tinify backend is a parameter: a function from the input bytes
  and the requested operation chain to a result and an updated library state
  (`tinify.compressionCount`, an `Option Nat` because it is `undefined`
  before any API interaction).
* JavaScript numbers are modelled exactly: sizes are naturals (≤ 50 MiB, so
  exactly representable in binary64), and the savings expression
  `Math.round((1 - c/o) * 100)` is evaluated the way the program evaluates
  it — in IEEE-754 binary64 arithmetic.  Each of `/`, `-`, `*` correctly
  rounds its exact result to 53 significand bits, nearest, ties to even
  (`fl64Pos`, `fl64`); `Math.round` then rounds the exact value of the final
  double half-up (`dyRoundHalfUp`).  Intermediate doubles are exact dyadic
  rationals m·2^p held as integer pairs, so the whole computation is
  kernel-evaluable integer arithmetic; exponent over/underflow and NaN are
  outside the reachable range (positive sizes up to the 50 MiB cap) and are
  not modelled.  This differs from exact rational rounding (`jsRound` of the
  exact expression) at tie inputs, e.g. sizes 40 → 17, where the program
  reports 57 and exact rounding gives 58.
-/

/-- Remote operation requested from the Tinify backend: `source.resize(...)`,
`result.convert({type})`, `result.transform({background})`. -/
inductive Op where
  | resize (method : String) (width : Nat) (height : Nat)
  | convert (type : String)
  | transform (background : String)
deriving DecidableEq, Repr

/-- JSON value as it appears in a response body.  `bytes` stands for the
base64 string of a buffer (transport encoding omitted, see module comment);
`undef` is JavaScript `undefined` (a field `res.json` serialisation drops). -/
inductive JVal where
  | s (v : String)
  | n (v : Int)
  | b (v : Bool)
  | bytes (v : List Nat)
  | undef
deriving DecidableEq, Repr

/-- HTTP response: a JSON body with a status code, or a binary body with a
status code and response headers. -/
inductive Response where
  | json (status : Nat) (body : List (String × JVal))
  | binary (status : Nat) (headers : List (String × String)) (body : List Nat)
deriving DecidableEq, Repr

/-- Error thrown by the Tinify client library: `error.status` is set on
Tinify account/client errors (`undefined` otherwise), `error.message` always
present. -/
structure JsError where
  status : Option Nat
  message : String
deriving DecidableEq, Repr

/-- Process-wide state of the Tinify client library observable to the
handlers: `tinify.compressionCount`, `undefined` until the library has seen an
API response. -/
structure TinifyState where
  compressionCount : Option Nat
deriving DecidableEq, Repr

/-- Result of the shared pipeline: `{ buffer: compressedBuffer, format: outputFormat }`. -/
structure CompressResult where
  buffer : List Nat
  format : String
deriving DecidableEq, Repr

/-- The options struct destructured by `compressImage`:
`{ format, width, height, background }`. -/
structure Options where
  format : Option String
  width : Option Nat
  height : Option Nat
  background : Option String
deriving DecidableEq, Repr

/-- External compression backend: given the source bytes and the chain of
requested operations it yields the compressed bytes (or a thrown error) and
the library state afterwards.  All claims hold for an arbitrary backend. -/
abbrev Backend :=
  List Nat → List Op → TinifyState → Except JsError (List Nat) × TinifyState

/-- Mathematical round-half-up on an exact rational, as a JavaScript
`Math.round` would behave on an exactly-held value.  Used to state what the
spec's formula `round((1 - c/o)·100)` yields; the program itself rounds the
double-evaluated expression instead (`jsSavings`). -/
def jsRound (q : ℚ) : ℤ := ⌊q + 1 / 2⌋

/-- Fuel-driven floor of log2 (structural recursion so the kernel can
evaluate it; `log2fuel n n` is exact for every positive `n`). -/
def log2fuel : Nat → Nat → Nat
  | 0, _ => 0
  | f + 1, n => if n ≤ 1 then 0 else log2fuel f (n / 2) + 1

/-- Floor of log2 of a positive natural. -/
def nlog2 (n : Nat) : Nat := log2fuel n n

/-- Floor of log2 of the positive fraction n/d: scale n by 2^K with
2^K > d, take the integer log2 of the scaled integer quotient (exact for
quotients ≥ 1), and shift back. -/
def ratFloorLog2 (n d : Nat) : Int :=
  let K := nlog2 d + 1
  (nlog2 ((n <<< K) / d) : Int) - K

/-- Round the fraction a/b to the nearest integer, ties to even — the
IEEE-754 default rounding applied to a significand. -/
def rndNE (a b : Nat) : Nat :=
  let q := a / b
  let r := a % b
  if 2 * r < b then q
  else if b < 2 * r then q + 1
  else if q % 2 = 0 then q else q + 1

/-- Correctly-rounded binary64 value of the nonnegative fraction n/d (normal
range), as a dyadic pair (mantissa, exponent) with value mantissa·2^exponent:
this is what an IEEE double division of the two exact integers produces. -/
def fl64Pos (n d : Nat) : Nat × Int :=
  if n = 0 then (0, 0)
  else
    let e := ratFloorLog2 n d
    let s := 52 - e
    let m := if 0 ≤ s then rndNE (n <<< s.toNat) d else rndNE n (d <<< (-s).toNat)
    (m, e - 52)

/-- Round an exact dyadic value mantissa·2^exponent back to 53 significand
bits, nearest, ties to even: the rounding an IEEE double subtraction or
multiplication applies to its exact result. -/
def fl64 (t : Int × Int) : Int × Int :=
  if t.1 = 0 then (0, 0)
  else
    let a := t.1.natAbs
    let l := nlog2 a
    if l ≤ 52 then t
    else
      let k := l - 52
      let m2 := (rndNE a (1 <<< k) : Int)
      (if t.1 < 0 then -m2 else m2, t.2 + k)

/-- Exact dyadic value of 1 minus a nonnegative dyadic (the untruncated
result of the subtraction `1 - t`, before rounding). -/
def oneMinus (t : Nat × Int) : Int × Int :=
  if 0 ≤ t.2 then (1 - (t.1 : Int) * 2 ^ t.2.toNat, 0)
  else ((2 : Int) ^ (-t.2).toNat - (t.1 : Int), t.2)

/-- Exact dyadic value of a dyadic times 100 (before rounding). -/
def times100 (t : Int × Int) : Int × Int := (t.1 * 100, t.2)

/-- JavaScript `Math.round` on the exact value of a double held as a dyadic:
round half toward positive infinity, computed with floor division. -/
def dyRoundHalfUp (t : Int × Int) : Int :=
  if 0 ≤ t.2 then t.1 * 2 ^ t.2.toNat
  else Int.fdiv (2 * t.1 + 2 ^ (-t.2).toNat) (2 ^ ((-t.2).toNat + 1))

/-- The savings value both endpoints compute,
`Math.round((1 - compressedSize / originalSize) * 100)`, evaluated as the
program evaluates it: division, subtraction and multiplication each
correctly rounded in IEEE-754 binary64, then `Math.round` applied to the
exact value of the resulting double.  Requires `0 < orig` to model the
program (division by zero yields NaN or -Infinity in JavaScript, not
modelled). -/
def jsSavings (orig comp : Nat) : ℤ :=
  dyRoundHalfUp (fl64 (times100 (fl64 (oneMinus (fl64Pos comp orig)))))

/-- Serialisation of `tinify.compressionCount` in the JSON success body: the
raw value, i.e. `undefined` (dropped by `res.json`) when the counter is unset —
no `|| 0` fallback there. -/
def jvalOfCount : Option Nat → JVal
  | none => JVal.undef
  | some c => JVal.n c

/-- Operation chain built by `compressImage` (part_000 lines 126-147): start
from the source, append a fit-resize when width or height is truthy, append a
format conversion when the resolved format is not png (normalising jpg to jpeg
in the MIME type), append a background fill when the resolved format is jpeg
or jpg. -/
def chainOps (o : Options) : List Op :=
  let source : List Op := []
  let result := source
  let result :=
    if o.width.isSome || o.height.isSome then
      result ++ [Op.resize "fit" (o.width.getD 9999) (o.height.getD 9999)]
    else result
  let outputFormat := o.format.getD "png"
  let result :=
    if outputFormat ≠ "png" then
      result ++ [Op.convert ("image/" ++ (if outputFormat = "jpg" then "jpeg" else outputFormat))]
    else result
  let result :=
    if outputFormat = "jpeg" ∨ outputFormat = "jpg" then
      result ++ [Op.transform (o.background.getD "white")]
    else result
  result

/-- Shared compression pipeline (`compressImage`, part_000 lines 123-151):
materialise the operation chain against the backend and return the compressed
buffer together with the resolved output format (note: the unnormalised
`outputFormat`, not the converted MIME type). -/
def compressImage (imageBuffer : List Nat) (options : Options) (b : Backend)
    (st : TinifyState) : Except JsError CompressResult × TinifyState :=
  let outputFormat := options.format.getD "png"
  match b imageBuffer (chainOps options) st with
  | (Except.ok buf, st1) => (Except.ok ⟨buf, outputFormat⟩, st1)
  | (Except.error e, st1) => (Except.error e, st1)

/-- Shared error classifier (`handleCompressionError`, part_000 lines
154-174): status and JSON error body for a caught compression error. -/
def handleCompressionError (e : JsError) : Nat × List (String × JVal) :=
  if e.status = some 401 then
    (401, [("error", JVal.s "Invalid API key"),
           ("message", JVal.s "Check your TINIFY_API_KEY in .env file")])
  else if e.status = some 429 then
    (429, [("error", JVal.s "Rate limited"),
           ("message", JVal.s "Monthly compression limit reached (500 for free tier)")])
  else
    (500, [("error", JVal.s "Compression failed"),
           ("message", JVal.s e.message)])

/-- Body of a `POST /api/compress` request: the (decoded) base64 `image`
field plus the transform options. -/
structure JsonRequest where
  image : Option (List Nat)
  format : Option String
  width : Option Nat
  height : Option Nat
  background : Option String
deriving DecidableEq, Repr

/-- Options destructured from the JSON request body. -/
def JsonRequest.toOptions (r : JsonRequest) : Options :=
  ⟨r.format, r.width, r.height, r.background⟩

/-- A `POST /api/compress/binary` request: the multer-parsed uploaded file
(`req.file`, absent when no file was sent) plus the form-field options
(numeric fields modelled post-`parseInt`). -/
structure BinaryRequest where
  file : Option (List Nat)
  format : Option String
  width : Option Nat
  height : Option Nat
  background : Option String
deriving DecidableEq, Repr

/-- Options destructured from the multipart form fields. -/
def BinaryRequest.toOptions (r : BinaryRequest) : Options :=
  ⟨r.format, r.width, r.height, r.background⟩

/-- Handler of `POST /api/compress` (part_000 lines 61-90): reject a missing
`image` field with 400, otherwise run the shared pipeline and reply with the
JSON success envelope, mapping thrown errors through the classifier. -/
def postCompress (req : JsonRequest) (b : Backend) (st : TinifyState) :
    Response × TinifyState :=
  match req.image with
  | none =>
    (Response.json 400 [("error", JVal.s "Missing image data"),
                        ("message", JVal.s "Please provide base64-encoded image data")], st)
  | some imageBuffer =>
    match compressImage imageBuffer req.toOptions b st with
    | (Except.ok result, st1) =>
      (Response.json 200
        [("success", JVal.b true),
         ("data", JVal.bytes result.buffer),
         ("originalSize", JVal.n imageBuffer.length),
         ("compressedSize", JVal.n result.buffer.length),
         ("savings", JVal.n (jsSavings imageBuffer.length result.buffer.length)),
         ("compressionCount", jvalOfCount st1.compressionCount)], st1)
    | (Except.error e, st1) =>
      let r := handleCompressionError e
      (Response.json r.1 r.2, st1)

/-- Handler of `POST /api/compress/binary` (part_000 lines 93-120): reject a
missing upload with 400, otherwise run the shared pipeline and reply with the
raw compressed bytes plus metadata headers, mapping thrown errors through the
classifier. -/
def postCompressBinary (req : BinaryRequest) (b : Backend) (st : TinifyState) :
    Response × TinifyState :=
  match req.file with
  | none =>
    (Response.json 400 [("error", JVal.s "Missing image data"),
                        ("message", JVal.s "Please provide image file")], st)
  | some imageBuffer =>
    match compressImage imageBuffer req.toOptions b st with
    | (Except.ok result, st1) =>
      (Response.binary 200
        [("Content-Type", "image/" ++ result.format),
         ("X-Original-Size", toString imageBuffer.length),
         ("X-Compressed-Size", toString result.buffer.length),
         ("X-Savings", toString (jsSavings imageBuffer.length result.buffer.length)),
         ("X-Compression-Count", toString (st1.compressionCount.getD 0))]
        result.buffer, st1)
    | (Except.error e, st1) =>
      let r := handleCompressionError e
      (Response.json r.1 r.2, st1)

/-- Handler of `GET /api/status` (part_000 lines 43-58): the outcome of
`tinify.validate()` is passed in as `v`. -/
def getStatus (v : Except JsError Unit) (st : TinifyState) : Response :=
  match v with
  | Except.ok _ =>
    Response.json 200
      [("status", JVal.s "ok"),
       ("compressionCount", JVal.n (st.compressionCount.getD 0)),
       ("message", JVal.s "API key validated successfully")]
  | Except.error e =>
    Response.json 401
      [("status", JVal.s "error"),
       ("error", JVal.s "Invalid API key"),
       ("message", JVal.s e.message)]

/-- Lookup of a response header (binary responses only). -/
def Response.header (r : Response) (k : String) : Option String :=
  match r with
  | Response.binary _ hs _ => hs.lookup k
  | Response.json _ _ => none

/-- Lookup of a field of a JSON response body. -/
def Response.jsonField (r : Response) (k : String) : Option JVal :=
  match r with
  | Response.json _ body => body.lookup k
  | Response.binary _ _ _ => none

/-- Operation chain built inline by the older `/api/compress` handler
(`src/server.js` lines 66-92): same conditional resize, convert and
background-fill steps written out in the route body. -/
def oldChainOps (o : Options) : List Op :=
  let source : List Op := []
  let result := source
  let result :=
    if o.width.isSome || o.height.isSome then
      result ++ [Op.resize "fit" (o.width.getD 9999) (o.height.getD 9999)]
    else result
  let outputFormat := o.format.getD "png"
  let result :=
    if outputFormat ≠ "png" then
      result ++ [Op.convert ("image/" ++ (if outputFormat = "jpg" then "jpeg" else outputFormat))]
    else result
  let result :=
    if outputFormat = "jpeg" ∨ outputFormat = "jpg" then
      result ++ [Op.transform (o.background.getD "white")]
    else result
  result

/-- The older inline `POST /api/compress` handler (`src/server.js` lines
53-126): missing-image check, inline pipeline, inline success envelope, and
the inline 401/429/500 error mapping of its catch block. -/
def oldPostCompress (req : JsonRequest) (b : Backend) (st : TinifyState) :
    Response × TinifyState :=
  match req.image with
  | none =>
    (Response.json 400 [("error", JVal.s "Missing image data"),
                        ("message", JVal.s "Please provide base64-encoded image data")], st)
  | some imageBuffer =>
    match b imageBuffer (oldChainOps ⟨req.format, req.width, req.height, req.background⟩) st with
    | (Except.ok compressedBuffer, st1) =>
      (Response.json 200
        [("success", JVal.b true),
         ("data", JVal.bytes compressedBuffer),
         ("originalSize", JVal.n imageBuffer.length),
         ("compressedSize", JVal.n compressedBuffer.length),
         ("savings", JVal.n (jsSavings imageBuffer.length compressedBuffer.length)),
         ("compressionCount", jvalOfCount st1.compressionCount)], st1)
    | (Except.error e, st1) =>
      if e.status = some 401 then
        (Response.json 401 [("error", JVal.s "Invalid API key"),
                            ("message", JVal.s "Check your TINIFY_API_KEY in .env file")], st1)
      else if e.status = some 429 then
        (Response.json 429 [("error", JVal.s "Rate limited"),
                            ("message", JVal.s "Monthly compression limit reached (500 for free tier)")], st1)
      else
        (Response.json 500 [("error", JVal.s "Compression failed"),
                            ("message", JVal.s e.message)], st1)

/-- Backend used for concrete witnesses: succeeds with a one-byte buffer and
leaves the library state unchanged. -/
def okBackend : Backend := fun _ _ st => (Except.ok [1], st)

/-! ### Helper lemmas -/

/-- Normal form of the operation chain: concatenation of the three
conditional segments. -/
lemma chainOps_eq (o : Options) :
    chainOps o =
      (if o.width.isSome || o.height.isSome then
        [Op.resize "fit" (o.width.getD 9999) (o.height.getD 9999)]
      else [])
      ++ (if o.format.getD "png" ≠ "png" then
        [Op.convert ("image/" ++
          (if o.format.getD "png" = "jpg" then "jpeg" else o.format.getD "png"))]
      else [])
      ++ (if o.format.getD "png" = "jpeg" ∨ o.format.getD "png" = "jpg" then
        [Op.transform (o.background.getD "white")]
      else []) := by
  unfold chainOps
  split_ifs <;> simp_all

/-- Reduction of the JSON handler on the success path. -/
lemma postCompress_ok (req : JsonRequest) (buf out : List Nat) (b : Backend)
    (st st1 : TinifyState) (hi : req.image = some buf)
    (hrun : b buf (chainOps req.toOptions) st = (Except.ok out, st1)) :
    postCompress req b st =
      (Response.json 200
        [("success", JVal.b true),
         ("data", JVal.bytes out),
         ("originalSize", JVal.n buf.length),
         ("compressedSize", JVal.n out.length),
         ("savings", JVal.n (jsSavings buf.length out.length)),
         ("compressionCount", jvalOfCount st1.compressionCount)], st1) := by
  simp [postCompress, compressImage, hi, hrun]

/-- Reduction of the binary handler on the success path. -/
lemma postCompressBinary_ok (req : BinaryRequest) (buf out : List Nat) (b : Backend)
    (st st1 : TinifyState) (hf : req.file = some buf)
    (hrun : b buf (chainOps req.toOptions) st = (Except.ok out, st1)) :
    postCompressBinary req b st =
      (Response.binary 200
        [("Content-Type", "image/" ++ req.format.getD "png"),
         ("X-Original-Size", toString buf.length),
         ("X-Compressed-Size", toString out.length),
         ("X-Savings", toString (jsSavings buf.length out.length)),
         ("X-Compression-Count", toString (st1.compressionCount.getD 0))]
        out, st1) := by
  simp [postCompressBinary, compressImage, hf, hrun]
  rfl

/-! ### Claim theorems -/

/-- C1 counterexample: with format "jpg" the binary endpoint's Content-Type
header is "image/jpg" — the resolved output format is *not* normalized to
"jpeg" there, refuting the claim that both the conversion and the reported
content type are normalized. -/
theorem C1_counterexample :
    (postCompressBinary ⟨some [0], some "jpg", none, none, none⟩ okBackend
        ⟨none⟩).1.header "Content-Type" = some "image/jpg"
    ∧ "image/jpg" ≠ "image/jpeg" := by
  constructor
  · rfl
  · decide

/-- C1 (amended): for a "jpg" request the conversion requested from the
backend is normalized to MIME type "image/jpeg", but the binary response's
Content-Type header uses the unnormalized resolved format and reads
"image/jpg". -/
theorem C1_jpg_normalization (req : BinaryRequest) (buf out : List Nat)
    (b : Backend) (st st1 : TinifyState) (hf : req.file = some buf)
    (hfmt : req.format = some "jpg")
    (hrun : b buf (chainOps req.toOptions) st = (Except.ok out, st1)) :
    Op.convert "image/jpeg" ∈ chainOps req.toOptions
    ∧ (postCompressBinary req b st).1.header "Content-Type" = some "image/jpg" := by
  have hofmt : req.toOptions.format = some "jpg" := by
    simp [BinaryRequest.toOptions, hfmt]
  constructor
  · rw [chainOps_eq, hofmt]
    simp
  · rw [postCompressBinary_ok req buf out b st st1 hf hrun, hfmt]
    rfl

/-- C1 witness: the amended theorem at a concrete jpg request. -/
theorem C1_jpg_normalization_witness :
    Op.convert "image/jpeg" ∈
      chainOps (BinaryRequest.toOptions ⟨some [0], some "jpg", none, none, none⟩)
    ∧ (postCompressBinary ⟨some [0], some "jpg", none, none, none⟩ okBackend
        ⟨none⟩).1.header "Content-Type" = some "image/jpg" :=
  C1_jpg_normalization ⟨some [0], some "jpg", none, none, none⟩ [0] [1]
    okBackend ⟨none⟩ ⟨none⟩ rfl rfl rfl

/-- C2: the pipeline's operation chain is the concatenation, in fixed order,
of the conditional resize, the conditional format conversion (requested
exactly when the resolved format, defaulting to png, differs from png), and
the conditional background fill (requested exactly when the resolved format
is jpeg or jpg, with the provided color defaulting to white). -/
theorem C2_pipeline_order (o : Options) :
    chainOps o =
      (if o.width.isSome || o.height.isSome then
        [Op.resize "fit" (o.width.getD 9999) (o.height.getD 9999)]
      else [])
      ++ (if o.format.getD "png" ≠ "png" then
        [Op.convert ("image/" ++
          (if o.format.getD "png" = "jpg" then "jpeg" else o.format.getD "png"))]
      else [])
      ++ (if o.format.getD "png" = "jpeg" ∨ o.format.getD "png" = "jpg" then
        [Op.transform (o.background.getD "white")]
      else []) :=
  chainOps_eq o

/-- C3: a JSON request without an image field and a binary request without an
uploaded file are both answered with status 400 and the missing-input error
body, with the backend state untouched (no compression performed). -/
theorem C3_missing_input :
    (∀ (req : JsonRequest) (b : Backend) (st : TinifyState), req.image = none →
      postCompress req b st =
        (Response.json 400
          [("error", JVal.s "Missing image data"),
           ("message", JVal.s "Please provide base64-encoded image data")], st))
    ∧ (∀ (req : BinaryRequest) (b : Backend) (st : TinifyState), req.file = none →
      postCompressBinary req b st =
        (Response.json 400
          [("error", JVal.s "Missing image data"),
           ("message", JVal.s "Please provide image file")], st)) := by
  constructor
  · intro req b st h
    simp [postCompress, h]
  · intro req b st h
    simp [postCompressBinary, h]

/-- C3 witness: the missing-input rejection at concrete empty requests. -/
theorem C3_missing_input_witness :
    postCompress ⟨none, none, none, none, none⟩ okBackend ⟨some 3⟩ =
      (Response.json 400
        [("error", JVal.s "Missing image data"),
         ("message", JVal.s "Please provide base64-encoded image data")], ⟨some 3⟩) :=
  C3_missing_input.1 ⟨none, none, none, none, none⟩ okBackend ⟨some 3⟩ rfl

/-- C4: the error classifier maps status 401 to a 401 "Invalid API key"
response, status 429 to a 429 response whose message names the 500-per-month
free-tier limit, and any other error to a 500 "Compression failed" response
surfacing the underlying message. -/
theorem C4_error_classifier (e : JsError) :
    (e.status = some 401 → handleCompressionError e =
      (401, [("error", JVal.s "Invalid API key"),
             ("message", JVal.s "Check your TINIFY_API_KEY in .env file")]))
    ∧ (e.status = some 429 → handleCompressionError e =
      (429, [("error", JVal.s "Rate limited"),
             ("message", JVal.s "Monthly compression limit reached (500 for free tier)")]))
    ∧ (e.status ≠ some 401 → e.status ≠ some 429 → handleCompressionError e =
      (500, [("error", JVal.s "Compression failed"),
             ("message", JVal.s e.message)])) := by
  refine ⟨fun h => ?_, fun h => ?_, fun h1 h2 => ?_⟩
  · simp [handleCompressionError, h]
  · simp [handleCompressionError, h]
  · simp [handleCompressionError, h1, h2]

/-- C4 witness: a statusless error is classified as a 500 with its message
surfaced. -/
theorem C4_error_classifier_witness :
    handleCompressionError ⟨none, "socket hang up"⟩ =
      (500, [("error", JVal.s "Compression failed"),
             ("message", JVal.s "socket hang up")]) :=
  (C4_error_classifier ⟨none, "socket hang up"⟩).2.2 (by decide) (by decide)

/-- C5 counterexample: at original size 40 and compressed size 17 the
program reports savings 57 — `(1 - 17/40) * 100` evaluated in IEEE doubles
lands one ulp below 57.5 — whereas exact rational rounding of the claimed
formula `round((1 - 17/40) * 100)` gives 58, refuting the claim that the
reported savings equals the exactly-rounded formula. -/
theorem C5_counterexample :
    (postCompress ⟨some (List.replicate 40 0), none, none, none, none⟩
        (fun _ _ st => (Except.ok (List.replicate 17 0), st))
        ⟨none⟩).1.jsonField "savings" = some (JVal.n 57)
    ∧ jsRound ((1 - (17 : ℚ) / 40) * 100) = 58
    ∧ (57 : ℤ) ≠ 58 := by
  refine ⟨by decide, ?_, by decide⟩
  norm_num [jsRound]

/-- C5 (amended): on every successful compression of a non-empty buffer, the
JSON endpoint's savings field and the binary endpoint's X-Savings header
both carry `jsSavings originalSize compressedSize` — `Math.round` applied to
the IEEE-binary64 evaluation of `(1 - compressedSize/originalSize) * 100`
(which can land on the other side of an exact .5 tie, reporting e.g. 57
rather than 58 at sizes 40 → 17) — a deterministic function of the two sizes
alone, computed identically by both endpoints. -/
theorem C5_savings :
    (∀ (req : JsonRequest) (buf out : List Nat) (b : Backend) (st st1 : TinifyState),
      req.image = some buf → 0 < buf.length →
      b buf (chainOps req.toOptions) st = (Except.ok out, st1) →
      (postCompress req b st).1.jsonField "savings" =
        some (JVal.n (jsSavings buf.length out.length)))
    ∧ (∀ (req : BinaryRequest) (buf out : List Nat) (b : Backend) (st st1 : TinifyState),
      req.file = some buf → 0 < buf.length →
      b buf (chainOps req.toOptions) st = (Except.ok out, st1) →
      (postCompressBinary req b st).1.header "X-Savings" =
        some (toString (jsSavings buf.length out.length)))
    ∧ ∀ orig comp : Nat,
      jsSavings orig comp =
        dyRoundHalfUp (fl64 (times100 (fl64 (oneMinus (fl64Pos comp orig))))) := by
  refine ⟨?_, ?_, ?_⟩
  · intro req buf out b st st1 hi _ hrun
    rw [postCompress_ok req buf out b st st1 hi hrun]
    rfl
  · intro req buf out b st st1 hf _ hrun
    rw [postCompressBinary_ok req buf out b st st1 hf hrun]
    rfl
  · intro orig comp
    rfl

/-- C5 witness: savings of a concrete 3-byte-to-1-byte compression is 67 on
both endpoints (the double evaluation is nowhere near a tie there). -/
theorem C5_savings_witness :
    (postCompress ⟨some [9, 9, 9], none, none, none, none⟩ okBackend
        ⟨none⟩).1.jsonField "savings" = some (JVal.n (jsSavings 3 1))
    ∧ (postCompressBinary ⟨some [9, 9, 9], none, none, none, none⟩ okBackend
        ⟨none⟩).1.header "X-Savings" = some (toString (jsSavings 3 1))
    ∧ jsSavings 3 1 = 67 :=
  ⟨C5_savings.1 ⟨some [9, 9, 9], none, none, none, none⟩ [9, 9, 9] [1]
      okBackend ⟨none⟩ ⟨none⟩ rfl (by decide) rfl,
   C5_savings.2.1 ⟨some [9, 9, 9], none, none, none, none⟩ [9, 9, 9] [1]
      okBackend ⟨none⟩ ⟨none⟩ rfl (by decide) rfl,
   by decide⟩

/-- C6: a resize operation appears in the chain exactly when width or height
is provided; when it does, it is the fit resize with each missing dimension
defaulting to 9999, so a single provided axis is the only scaling
constraint. -/
theorem C6_resize_fit (o : Options) :
    ((∃ m w h, Op.resize m w h ∈ chainOps o) ↔ (o.width.isSome ∨ o.height.isSome))
    ∧ ((o.width.isSome ∨ o.height.isSome) →
      (chainOps o).head? =
        some (Op.resize "fit" (o.width.getD 9999) (o.height.getD 9999))) := by
  rw [chainOps_eq]
  by_cases hw : (o.width.isSome || o.height.isSome) = true
  · rw [if_pos hw]
    refine ⟨⟨fun _ => by simpa [Bool.or_eq_true] using hw,
      fun _ => ⟨"fit", o.width.getD 9999, o.height.getD 9999, by simp⟩⟩,
      fun _ => by simp⟩
  · rw [if_neg hw]
    simp only [Bool.or_eq_true, not_or, Bool.not_eq_true] at hw
    refine ⟨⟨fun hmem => ?_, fun hcon => ?_⟩, fun hcon => ?_⟩
    · exfalso
      obtain ⟨m, w, h, hm⟩ := hmem
      simp only [List.nil_append, List.mem_append] at hm
      rcases hm with hm | hm <;> split_ifs at hm <;> simp_all
    · simp [hw.1, hw.2] at hcon
    · simp [hw.1, hw.2] at hcon

/-- C6 witness: with only a width of 800 the chain is headed by the fit
resize 800 by 9999, and with no dimensions no resize is requested. -/
theorem C6_resize_fit_witness :
    (chainOps ⟨none, some 800, none, none⟩).head? =
      some (Op.resize "fit" 800 9999) :=
  (C6_resize_fit ⟨none, some 800, none, none⟩).2 (Or.inl (by decide))

/-- C7: the status endpoint answers a successful credential validation with a
200 body carrying status ok and the compression count, and a failed
validation with a 401 body carrying an explanatory message. -/
theorem C7_status_endpoint (v : Except JsError Unit) (st : TinifyState) :
    (v = Except.ok () → getStatus v st =
      Response.json 200
        [("status", JVal.s "ok"),
         ("compressionCount", JVal.n (st.compressionCount.getD 0)),
         ("message", JVal.s "API key validated successfully")])
    ∧ (∀ e, v = Except.error e → getStatus v st =
      Response.json 401
        [("status", JVal.s "error"),
         ("error", JVal.s "Invalid API key"),
         ("message", JVal.s e.message)]) := by
  constructor
  · intro h
    rw [h]
    rfl
  · intro e h
    rw [h]
    rfl

/-- C7 witness: the status endpoint at a concrete validated state with seven
compressions used. -/
theorem C7_status_endpoint_witness :
    getStatus (Except.ok ()) ⟨some 7⟩ =
      Response.json 200
        [("status", JVal.s "ok"),
         ("compressionCount", JVal.n 7),
         ("message", JVal.s "API key validated successfully")] :=
  (C7_status_endpoint (Except.ok ()) ⟨some 7⟩).1 rfl

/-- The old inline chain construction and the refactored one are the same
function. -/
lemma oldChainOps_eq_chainOps : oldChainOps = chainOps := rfl

/-- C8: the older inline /api/compress handler of server.js and the
refactored shared-pipeline handler build the identical operation chain and
return the identical response (success body included) for every request,
backend and library state. -/
theorem C8_refinement :
    oldChainOps = chainOps
    ∧ ∀ (req : JsonRequest) (b : Backend) (st : TinifyState),
      oldPostCompress req b st = postCompress req b st := by
  refine ⟨oldChainOps_eq_chainOps, fun req b st => ?_⟩
  rcases req with ⟨img, f, w, h, bg⟩
  cases img with
  | none => rfl
  | some buf =>
    unfold oldPostCompress postCompress compressImage handleCompressionError
    rw [oldChainOps_eq_chainOps]
    simp only [JsonRequest.toOptions]
    rcases hb : b buf (chainOps ⟨f, w, h, bg⟩) st with ⟨r, st1⟩
    cases r with
    | ok out => simp
    | error e =>
      by_cases h1 : e.status = some 401
      · simp [h1]
      · by_cases h2 : e.status = some 429 <;> simp [h1, h2]

/-- C9: a request rejected for missing input is answered identically under
every backend — the 400 response is built before any backend interaction —
and leaves the external library state (the monthly compression counter)
unchanged. -/
theorem C9_reject_before_backend :
    (∀ (req : JsonRequest) (b1 b2 : Backend) (st : TinifyState), req.image = none →
      postCompress req b1 st = postCompress req b2 st
      ∧ (postCompress req b1 st).2 = st)
    ∧ (∀ (req : BinaryRequest) (b1 b2 : Backend) (st : TinifyState), req.file = none →
      postCompressBinary req b1 st = postCompressBinary req b2 st
      ∧ (postCompressBinary req b1 st).2 = st) := by
  constructor
  · intro req b1 b2 st h
    constructor <;> simp [postCompress, h]
  · intro req b1 b2 st h
    constructor <;> simp [postCompressBinary, h]

/-- C9 witness: a concrete empty binary request under the trivial backend. -/
theorem C9_reject_before_backend_witness :
    postCompressBinary ⟨none, some "jpeg", none, none, none⟩ okBackend ⟨some 4⟩ =
      postCompressBinary ⟨none, some "jpeg", none, none, none⟩
        (fun _ _ st => (Except.error ⟨some 429, "limit"⟩, st)) ⟨some 4⟩
    ∧ (postCompressBinary ⟨none, some "jpeg", none, none, none⟩ okBackend
        ⟨some 4⟩).2 = ⟨some 4⟩ :=
  C9_reject_before_backend.2 ⟨none, some "jpeg", none, none, none⟩ okBackend
    (fun _ _ st => (Except.error ⟨some 429, "limit"⟩, st)) ⟨some 4⟩ rfl

/-- C10: every successful binary compression carries the four metadata
headers, with X-Compression-Count falling back to "0" when the library
counter is unset, while the JSON endpoint serialises the raw counter
(undefined, no fallback, when unset). -/
theorem C10_metadata_headers :
    (∀ (req : BinaryRequest) (buf out : List Nat) (b : Backend) (st st1 : TinifyState),
      req.file = some buf →
      b buf (chainOps req.toOptions) st = (Except.ok out, st1) →
      (postCompressBinary req b st).1.header "X-Original-Size" = some (toString buf.length)
      ∧ (postCompressBinary req b st).1.header "X-Compressed-Size" = some (toString out.length)
      ∧ (postCompressBinary req b st).1.header "X-Savings" =
          some (toString (jsSavings buf.length out.length))
      ∧ (postCompressBinary req b st).1.header "X-Compression-Count" =
          some (toString (st1.compressionCount.getD 0)))
    ∧ (∀ (req : JsonRequest) (buf out : List Nat) (b : Backend) (st st1 : TinifyState),
      req.image = some buf →
      b buf (chainOps req.toOptions) st = (Except.ok out, st1) →
      (postCompress req b st).1.jsonField "compressionCount" =
        some (jvalOfCount st1.compressionCount))
    ∧ jvalOfCount none = JVal.undef
    ∧ toString ((none : Option Nat).getD 0) = "0" := by
  refine ⟨?_, ?_, rfl, rfl⟩
  · intro req buf out b st st1 hf hrun
    rw [postCompressBinary_ok req buf out b st st1 hf hrun]
    exact ⟨rfl, rfl, rfl, rfl⟩
  · intro req buf out b st st1 hi hrun
    rw [postCompress_ok req buf out b st st1 hi hrun]
    rfl

/-- C10 witness: a concrete successful binary compression with the counter
unset defaults the X-Compression-Count header to "0". -/
theorem C10_metadata_headers_witness :
    (postCompressBinary ⟨some [5, 5], none, none, none, none⟩ okBackend
        ⟨none⟩).1.header "X-Original-Size" = some "2"
    ∧ (postCompressBinary ⟨some [5, 5], none, none, none, none⟩ okBackend
        ⟨none⟩).1.header "X-Compressed-Size" = some "1"
    ∧ (postCompressBinary ⟨some [5, 5], none, none, none, none⟩ okBackend
        ⟨none⟩).1.header "X-Savings" = some (toString (jsSavings 2 1))
    ∧ (postCompressBinary ⟨some [5, 5], none, none, none, none⟩ okBackend
        ⟨none⟩).1.header "X-Compression-Count" = some "0" :=
  C10_metadata_headers.1 ⟨some [5, 5], none, none, none, none⟩ [5, 5] [1]
    okBackend ⟨none⟩ ⟨none⟩ rfl rfl
